import Mathlib

/-!
Shallow embedding of the circadian lending ML pipeline
(src/ml-services) over exact rational arithmetic, together with
verification of the specification claims about it.

Python floats are modelled by ℚ (exact arithmetic); numpy reductions
(mean, clip, argmax, argmin) are embedded as the corresponding exact
list operations.  The one float operation with no rational counterpart
(np.sqrt inside np.std) is passed in as an abstract function parameter,
so every statement is proved for an arbitrary square-root function.
-/

namespace CircadianLending

/-- np.mean of a list of rationals: sum divided by length. -/
def npMean (l : List ℚ) : ℚ := l.sum / l.length

/-- np.clip(x, lo, hi): clamp x into the interval [lo, hi]. -/
def npClip (x lo hi : ℚ) : ℚ := min (max x lo) hi

/-- Population variance, the quantity under the square root in np.std. -/
def npVar (l : List ℚ) : ℚ := npMean (l.map (fun x => (x - npMean l) ^ 2))

/-- Auxiliary scan for np.argmax: carries the current index, the index of
the best value so far and the best value; a strictly greater value replaces
the best, so ties keep the first occurrence, as numpy does. -/
def argmaxAux : List ℚ → ℕ → ℕ → ℚ → ℕ
  | [], _, bi, _ => bi
  | x :: xs, i, bi, bv =>
      if bv < x then argmaxAux xs (i + 1) i x else argmaxAux xs (i + 1) bi bv

/-- np.argmax: index of the first maximal element (0 on the empty list,
where numpy instead raises; we only apply it to non-empty windows). -/
def npArgmax : List ℚ → ℕ
  | [] => 0
  | x :: xs => argmaxAux xs 1 0 x

/-- Auxiliary scan for np.argmin, symmetric to argmaxAux. -/
def argminAux : List ℚ → ℕ → ℕ → ℚ → ℕ
  | [], _, bi, _ => bi
  | x :: xs, i, bi, bv =>
      if x < bv then argminAux xs (i + 1) i x else argminAux xs (i + 1) bi bv

/-- np.argmin: index of the first minimal element. -/
def npArgmin : List ℚ → ℕ
  | [] => 0
  | x :: xs => argminAux xs 1 0 x

/-! ### Rate adjustment (ml_server.py, calculate_circadian_rate route)

Embeds lines 213-244 of src/ml-services/api/ml_server.py: the arithmetic
after the chronotype prediction, with the predicted (chronotype,
confidence) pair taken as parameters. -/

/-- Embeds the dict `hourly_multipliers` together with the
`.get(current_hour, 10000)` lookup (ml_server.py lines 214-221). -/
def hourly_multipliers (h : ℤ) : ℤ :=
  if h = 2 ∨ h = 3 ∨ h = 4 ∨ h = 5 ∨ h = 6 then 8500
  else if h = 9 ∨ h = 10 ∨ h = 11 ∨ h = 12 ∨ h = 13 ∨
          h = 14 ∨ h = 15 ∨ h = 16 ∨ h = 17 then 11000
  else if h = 22 ∨ h = 23 ∨ h = 0 ∨ h = 1 then 9000
  else 10000

/-- Embeds the dict `chronotype_adjustments` together with the
`.get(chronotype, 10000)` lookup (ml_server.py lines 224-230). -/
def chronotype_adjustments (c : ℤ) : ℤ :=
  if c = 0 then 9500
  else if c = 1 then 10000
  else if c = 2 then 10500
  else 10000

/-- The JSON body returned by the calculate_circadian_rate route
(ml_server.py lines 235-244). -/
structure RateResponse where
  adjusted_rate : ℤ
  base_rate : ℤ
  chronotype : ℤ
  confidence : ℚ
  hourly_multiplier : ℤ
  behavior_multiplier : ℤ
  current_hour : ℤ
deriving DecidableEq, Repr

/-- Embeds the rate computation of the calculate_circadian_rate route
(ml_server.py lines 213-244).  Python's `//` is floor division, hence
Int.fdiv.  The chronotype label and the confidence produced by the
predictor are parameters; the code echoes the confidence into the
response but never uses it in the arithmetic. -/
def calculate_circadian_rate (base_rate current_hour chronotype : ℤ)
    (confidence : ℚ) : RateResponse :=
  let hourly_multiplier := hourly_multipliers current_hour
  let behavior_multiplier := chronotype_adjustments chronotype
  let adjusted_rate :=
    Int.fdiv (base_rate * hourly_multiplier * behavior_multiplier)
      (10000 * 10000)
  { adjusted_rate := adjusted_rate
    base_rate := base_rate
    chronotype := chronotype
    confidence := confidence
    hourly_multiplier := hourly_multiplier
    behavior_multiplier := behavior_multiplier
    current_hour := current_hour }

/-- Specification-side hourly multiplier table, written following the
wording of spec §4.7 and claim C2: hours 2-6 map to 8500, hours 9-13 and
14-17 to 11000, hours 22, 23, 0, 1 to 9000, every other hour to 10000. -/
def specHourlyMultiplier (h : ℤ) : ℤ :=
  if 2 ≤ h ∧ h ≤ 6 then 8500
  else if (9 ≤ h ∧ h ≤ 13) ∨ (14 ≤ h ∧ h ≤ 17) then 11000
  else if h = 22 ∨ h = 23 ∨ h = 0 ∨ h = 1 then 9000
  else 10000

/-- Specification-side chronotype multiplier table of spec §4.7:
label 0 (Early) maps to 9500, 1 (Intermediate) to 10000,
2 (Late) to 10500. -/
def specChronotypeMultiplier (c : ℤ) : ℤ :=
  if c = 0 then 9500 else if c = 1 then 10000 else 10500

/-! ### Engineered features (ml_server.py and pattern_recognizer.py)

The 9-entry feature computation appears twice in the source with
textually identical bodies (ml_server.py lines 137-151 and
pattern_recognizer.py lines 89-103); it is factored out here once, and
the two callers below embed their distinct window-length/padding
wrappers.  The abstract `sq` parameter stands for the square root used
inside np.std; every theorem holds for an arbitrary such function. -/

/-- The shared 9-feature body: peak hour (np.argmax), trough hour
(np.argmin), mean, std (sq of the population variance), morning mean
(hours 6-11), evening mean (hours 18-23), night mean (hours 0-5),
morning/evening ratio with the 1e-6 epsilon guard, and the normalized
peak offset (peak - 12)/12. -/
def features9 (sq : ℚ → ℚ) (w : List ℚ) : List ℚ :=
  let peak_hour := npArgmax w
  let trough_hour := npArgmin w
  let mean_activity := npMean w
  let std_activity := sq (npVar w)
  let morning_activity := npMean ((w.drop 6).take 6)
  let evening_activity := npMean ((w.drop 18).take 6)
  let night_activity := npMean (w.take 6)
  [(peak_hour : ℚ), (trough_hour : ℚ), mean_activity, std_activity,
   morning_activity, evening_activity, night_activity,
   morning_activity / (evening_activity + 1 / 1000000),
   ((peak_hour : ℚ) - 12) / 12]

/-- Embeds MLPredictor.create_engineered_features (ml_server.py lines
125-153): an empty input returns np.zeros(9); otherwise the first 24
samples are taken and, when fewer than 24 are available, the window is
padded at the end with the mean of the available samples (np.pad with
constant_values) before the features are computed. -/
def create_engineered_features (sq : ℚ → ℚ) (pattern : List ℚ) : List ℚ :=
  if pattern.length = 0 then List.replicate 9 0
  else
    let pattern_24h := if 24 ≤ pattern.length then pattern.take 24 else pattern
    let padded :=
      if pattern_24h.length < 24 then
        pattern_24h ++ List.replicate (24 - pattern_24h.length) (npMean pattern_24h)
      else pattern_24h
    features9 sq padded

/-- Embeds ChronotypeClassifier.create_time_based_features
(pattern_recognizer.py lines 76-110) applied to a single pattern: the
first 24 samples feed the feature computation directly, with no padding
and no empty-input guard. -/
def create_time_based_features (sq : ℚ → ℚ) (pattern : List ℚ) : List ℚ :=
  let pattern_24h := if 24 ≤ pattern.length then pattern.take 24 else pattern
  features9 sq pattern_24h

/-- A 20-sample activity window: 0.1 for hours 0-17 and 1.0 for hours
18-19.  On it the serving-time and training-time feature computations
disagree (the former pads to 24 samples with the window mean 0.19, the
latter does not). -/
def divergenceWindow : List ℚ :=
  [1/10, 1/10, 1/10, 1/10, 1/10, 1/10, 1/10, 1/10, 1/10, 1/10,
   1/10, 1/10, 1/10, 1/10, 1/10, 1/10, 1/10, 1/10, 1, 1]

/-- A 10-sample activity window used to instantiate the padding rule. -/
def padWindow10 : List ℚ :=
  [1/10, 3/10, 1/2, 7/10, 9/10, 1, 4/5, 3/5, 2/5, 1/5]

/-! ### Chronotype prediction (ml_server.py, MLPredictor) -/

/-- State of the MLPredictor: whether the external models loaded, and
the try-block body of predict_chronotype (autoencoder features, scaler,
classifier — external collaborators per spec §1) as an abstract function
returning either a (chronotype, confidence) pair or a raised
exception. -/
structure MLPredictorState where
  models_loaded : Bool
  pipeline : List ℚ → Except String (ℕ × ℚ)

/-- The result dict of MLPredictor.predict_chronotype; keys absent from
a branch of the source are `none`. -/
structure PredictResult where
  chronotype : ℤ
  success : Bool
  chronotype_name : Option String
  confidence : Option ℚ
  error : Option String

/-- Embeds MLPredictor.predict_chronotype (ml_server.py lines 75-123):
when the models are not loaded it immediately returns the structured
result with error set, chronotype 1 and success false; otherwise the
pipeline runs inside try/except whose except branch returns the same
safe default carrying the exception message. -/
def predict_chronotype (st : MLPredictorState)
    (activity_pattern : List ℚ) : PredictResult :=
  if st.models_loaded = false then
    { chronotype := 1, success := false, chronotype_name := none,
      confidence := none, error := some "Models not loaded" }
  else
    match st.pipeline activity_pattern with
    | .ok (c, conf) =>
        { chronotype := (c : ℤ), success := true,
          chronotype_name := some (["Early", "Intermediate", "Late"].getD c ""),
          confidence := some conf, error := none }
    | .error msg =>
        { chronotype := 1, success := false, chronotype_name := none,
          confidence := none, error := some msg }

/-- A predictor whose external models are not loaded. -/
def unloadedPredictor : MLPredictorState :=
  { models_loaded := false, pipeline := fun _ => .error "Models not loaded" }

/-! ### Behavioral perturbation transforms (synthetic_user_patterns.py)

Random draws (uniform shifts, normal noise, day selections) are abstract
function parameters, so every theorem quantifies over all realizations;
trigonometric factors, which have no exact rational value, are likewise
abstract. -/

/-- The three chronotype classes, the keys of the stress and seasonal
dicts and the labels of van_der_pol_generator.py. -/
inductive Chronotype
  | early
  | intermediate
  | late
deriving DecidableEq, Repr

/-- The stress_factors dict (synthetic_user_patterns.py lines 53-57). -/
def stress_factors : Chronotype → ℚ
  | .early => 1/20
  | .intermediate => 1/10
  | .late => 3/20

/-- The seasonal_strength dict (synthetic_user_patterns.py lines 87-91). -/
def seasonal_strength : Chronotype → ℚ
  | .early => 1/20
  | .intermediate => 1/10
  | .late => 1/5

/-- The weekend condition of add_social_jetlag (line 33): day-of-week 5
or 6, or day-of-week 4 from 18:00 on, with day-of-week =
(hour // 24) % 7 and hour-of-day = hour % 24 in Python floor-division
arithmetic (Int.fdiv / Int.fmod). -/
def isWeekendShiftHour (hour : ℤ) : Bool :=
  let day_of_week := Int.fmod (Int.fdiv hour 24) 7
  let hour_of_day := Int.fmod hour 24
  decide (day_of_week = 5) || decide (day_of_week = 6) ||
    (decide (day_of_week = 4) && decide (18 ≤ hour_of_day))

/-- Embeds add_social_jetlag (synthetic_user_patterns.py lines 20-43).
The phase shift int(np.random.uniform(1, 3)) drawn at index i is the
abstract `shift i`.  On weekend hours, activity[i] is overwritten by the
entry shift-positions ahead of the sequentially mutated list whenever
that index is in bounds, exactly as the in-place Python loop does. -/
def add_social_jetlag (shift : ℕ → ℕ) (time_hours : List ℤ)
    (activity : List ℚ) : List ℚ :=
  (List.range time_hours.length).foldl
    (fun act i =>
      if isWeekendShiftHour (time_hours.getD i 0) then
        if i + shift i < act.length then act.set i (act.getD (i + shift i) 0)
        else act
      else act)
    activity

/-- Embeds add_stress_patterns (synthetic_user_patterns.py lines 45-77).
The selected stress days and the per-hour Gaussian draws are abstract;
the three sequential in-place updates on one hour (scale by
1 - stress_level, add noise, clip to [0.05, 1.0]) compose into one
clipped update of that hour. -/
def add_stress_patterns (ct : Chronotype) (stress_days : List ℕ)
    (noise : ℕ → ℚ) (activity : List ℚ) : List ℚ :=
  let stress_level := stress_factors ct
  stress_days.foldl
    (fun act stress_day =>
      let start_hour := stress_day * 24
      let end_hour := min (start_hour + 24) act.length
      (List.range' start_hour (end_hour - start_hour)).foldl
        (fun act i =>
          act.set i
            (npClip (act.getD i 0 * (1 - stress_level) + noise i) (1/20) 1))
        act)
    activity

/-- Embeds add_seasonal_variation (synthetic_user_patterns.py lines
79-103).  The factor 1 + strength·cos(2π(day-80)/365) attached to the
i-th hour, which has no exact rational value, is the abstract
`seasonal_factor i`; each hour is scaled by it and clipped. -/
def add_seasonal_variation (seasonal_factor : ℕ → ℚ) (time_hours : List ℤ)
    (activity : List ℚ) : List ℚ :=
  (List.range time_hours.length).foldl
    (fun act i =>
      act.set i (npClip (act.getD i 0 * seasonal_factor i) (1/20) 1))
    activity

/-- A travel event as appended to user_data, lines 130-134. -/
structure TravelEvent where
  day : ℕ
  timezone_shift : ℤ
  recovery_days : ℕ
deriving DecidableEq, Repr

/-- The failure np.random.choice raises when asked for more samples
without replacement than the population holds — in particular when the
population range(7, total_days-7) is empty but the count is positive. -/
inductive SampleError
  | sampleLargerThanPopulation
deriving DecidableEq, Repr

/-- shift_strength of line 145:
|timezoneShift| · (1 - recoveryDay/recoveryDays) / 8. -/
def shift_strength (timezone_shift : ℤ) (recovery_day recovery_days : ℕ) : ℚ :=
  |(timezone_shift : ℚ)| * (1 - (recovery_day : ℚ) / (recovery_days : ℚ)) / 8

/-- The body of the per-trip loop of add_travel_jetlag (lines 123-151):
for each recovery day whose day index is within range, every hour of
that day is scaled down by 1 - 0.3·shiftStrength, noised and clipped. -/
def applyTrip (pickShift : ℕ → ℤ) (pickRecovery : ℕ → ℕ)
    (noise : ℕ → ℕ → ℚ) (total_days : ℕ) (act0 : List ℚ)
    (trip_day : ℕ) : List ℚ :=
  let timezone_shift := pickShift trip_day
  let recovery_days := pickRecovery trip_day
  (List.range recovery_days).foldl
    (fun act recovery_day =>
      let day_idx := trip_day + recovery_day
      if day_idx < total_days then
        let start_hour := day_idx * 24
        let end_hour := min (start_hour + 24) act.length
        let ss := shift_strength timezone_shift recovery_day recovery_days
        (List.range' start_hour (end_hour - start_hour)).foldl
          (fun act hour_idx =>
            act.set hour_idx
              (npClip (act.getD hour_idx 0 * (1 - ss * (3/10)) +
                noise trip_day hour_idx) (1/20) 1))
          act
      else act)
    act0

/-- Embeds add_travel_jetlag (synthetic_user_patterns.py lines 105-158).
total_days = len(time_hours) // 24.  The np.random.choice draw of trip
days from range(7, total_days - 7) (population size total_days - 14,
clamped at 0) is the abstract `pickDays popSize count`; numpy raises
when count exceeds the population size — in particular whenever
9 < total_days ≤ 14, where the range is empty but count is positive —
embedded as the error result.  The source's single loop both appends
each trip's event record and applies its mutation; the two are
independent and appear here as a map and a fold. -/
def add_travel_jetlag (pickDays : ℕ → ℕ → List ℕ) (pickShift : ℕ → ℤ)
    (pickRecovery : ℕ → ℕ) (noise : ℕ → ℕ → ℚ) (n_trips : ℕ)
    (time_hours : List ℤ) (activity : List ℚ) :
    Except SampleError (List ℚ × List TravelEvent) :=
  let total_days := time_hours.length / 24
  if 0 < n_trips ∧ 7 < total_days then
    let pop_size := total_days - 14
    let count := min n_trips (total_days / 10)
    if pop_size < count then .error .sampleLargerThanPopulation
    else
      let trip_days := pickDays pop_size count
      .ok (trip_days.foldl (applyTrip pickShift pickRecovery noise total_days)
             activity,
           trip_days.map (fun d =>
             { day := d, timezone_shift := pickShift d,
               recovery_days := pickRecovery d }))
  else .ok (activity, [])

/-- The derived activity signal of add_travel_jetlag on success, the
base signal on the error path (used to state the success-path invariants
of claim C5 without binders). -/
def travelActivity (pickDays : ℕ → ℕ → List ℕ) (pickShift : ℕ → ℤ)
    (pickRecovery : ℕ → ℕ) (noise : ℕ → ℕ → ℚ) (n_trips : ℕ)
    (time_hours : List ℤ) (activity : List ℚ) : List ℚ :=
  match add_travel_jetlag pickDays pickShift pickRecovery noise n_trips
      time_hours activity with
  | .ok p => p.1
  | .error _ => activity

/-- Every sample lies in the physiological band [0.05, 1.0]. -/
def InPhysRange (l : List ℚ) : Prop := ∀ x ∈ l, 1/20 ≤ x ∧ x ≤ 1

/-! ### Population generation (van_der_pol_generator.py) -/

/-- The generation-failure kind of spec §4.3 and §7.  Modelled from the
spec: no such error class or raise site exists anywhere in the code;
it appears here only so that the absence of the failure is statable. -/
inductive GenerationError
  | invalidParams
deriving DecidableEq, Repr

/-- The population record at the granularity claims C7 and C8 speak
about: the per-class counts and the generation-ordered list of subject
chronotypes. -/
structure Population where
  users : List Chronotype
  total_users : ℤ
  days_per_user : ℤ
  n_early : ℤ
  n_late : ℤ
  n_intermediate : ℤ
deriving DecidableEq, Repr

/-- Embeds generate_population_data (van_der_pol_generator.py lines
129-212): n_early = n_late = int(0.25 · n_users) (exact in float, then
truncated toward zero — Int.tdiv), the intermediate class
absorbs the remainder, and users are generated in the order early, late,
intermediate (a range over a non-positive count runs zero times).  The
per-subject oscillator data is outside the scope of these claims.  The
function validates nothing and has no raise statement, so the result is
always ok. -/
def generate_population_data (n_users days : ℤ) :
    Except GenerationError Population :=
  let n_early := Int.tdiv n_users 4
  let n_late := Int.tdiv n_users 4
  let n_intermediate := n_users - n_early - n_late
  .ok { users := List.replicate n_early.toNat Chronotype.early ++
                 List.replicate n_late.toNat Chronotype.late ++
                 List.replicate n_intermediate.toNat Chronotype.intermediate,
        total_users := n_users, days_per_user := days,
        n_early := n_early, n_late := n_late,
        n_intermediate := n_intermediate }

/-- The generated subject list (empty on the — unreachable — error
path). -/
def usersOf (n_users days : ℤ) : List Chronotype :=
  match generate_population_data n_users days with
  | .ok p => p.users
  | .error _ => []

/-! ### Hourly resampling of the oscillator signal
(van_der_pol_generator.py, generate_circadian_oscillation) -/

/-- The k-th node of np.linspace(0, T, 4·T) (line 54, T = days·24 total
hours): k·T/(4T-1), endpoint included. -/
def linspaceNode (T k : ℕ) : ℚ := (k : ℚ) * T / (4 * (T : ℚ) - 1)

/-- The linspace indices whose node falls in the hour bucket [h, h+1)
(the mask (t >= hour) & (t < hour + 1) of line 78). -/
def hourBucket (T h : ℕ) : List ℕ :=
  (List.range (4 * T)).filter
    (fun k => decide ((h : ℚ) ≤ linspaceNode T k) &&
      decide (linspaceNode T k < (h : ℚ) + 1))

/-- Embeds the hourly-averaging loop of generate_circadian_oscillation
(lines 74-81): hours with a non-empty bucket are kept, paired with the
mean of the samples at the bucket's nodes; an hour with an empty bucket
is dropped, shortening the signal.  The normalized noise-clipped sample
at node k is the abstract `sample k`. -/
def generate_hourly (days : ℕ) (sample : ℕ → ℚ) : List ℕ × List ℚ :=
  let total_hours := days * 24
  let kept := (List.range total_hours).filter
    (fun h => !(hourBucket total_hours h).isEmpty)
  (kept, kept.map (fun h => npMean ((hourBucket total_hours h).map sample)))

end CircadianLending

namespace CircadianLending

/-- C2: for every integer baseRate ≥ 0, every hour in [0,23] and every
label in {0,1,2}, the rate route returns
floor(baseRate · H(hour) · C(label) / 10^8) in exact integer arithmetic,
with H and C the tables of the specification; in particular the route
maps (10000, hour 3, label 0) to 8075 and (10000, hour 10, label 2)
to 11550 for every confidence. -/
theorem c2_adjust_rate_functional (base hour label : ℤ) (conf : ℚ)
    (_hb : 0 ≤ base) (h0 : 0 ≤ hour) (h23 : hour ≤ 23)
    (hl : label = 0 ∨ label = 1 ∨ label = 2) :
    (calculate_circadian_rate base hour label conf).adjusted_rate =
      Int.fdiv (base * specHourlyMultiplier hour *
        specChronotypeMultiplier label) (10 ^ 8) ∧
    (calculate_circadian_rate 10000 3 0 conf).adjusted_rate = 8075 ∧
    (calculate_circadian_rate 10000 10 2 conf).adjusted_rate = 11550 := by
  refine ⟨?_, rfl, rfl⟩
  have hhm : hourly_multipliers hour = specHourlyMultiplier hour := by
    interval_cases hour <;> decide
  have hcm : chronotype_adjustments label = specChronotypeMultiplier label := by
    rcases hl with rfl | rfl | rfl <;> decide
  simp only [calculate_circadian_rate, hhm, hcm]
  norm_num

/-- Witness for C2 at base 10000, hour 3, label 0, confidence 1/2. -/
theorem c2_adjust_rate_functional_witness :
    (calculate_circadian_rate 10000 3 0 (1/2)).adjusted_rate =
      Int.fdiv (10000 * specHourlyMultiplier 3 *
        specChronotypeMultiplier 0) (10 ^ 8) ∧
    (calculate_circadian_rate 10000 3 0 (1/2)).adjusted_rate = 8075 ∧
    (calculate_circadian_rate 10000 10 2 (1/2)).adjusted_rate = 11550 :=
  c2_adjust_rate_functional 10000 3 0 (1/2) (by decide) (by decide)
    (by decide) (Or.inl rfl)

/-- C3: the confidence argument never changes the arithmetic result of
the rate route: any two confidence values give the same adjusted_rate
for every base rate, hour and label. -/
theorem c3_confidence_noninterference (base hour label : ℤ) (c1 c2 : ℚ) :
    (calculate_circadian_rate base hour label c1).adjusted_rate =
      (calculate_circadian_rate base hour label c2).adjusted_rate := rfl

/-- C1 fails on the code: on the 20-sample divergenceWindow the
serving-time feature computation (create_engineered_features, which pads
short windows to 24 samples with the window mean) and the training-time
feature computation (create_time_based_features, which does not pad)
return different feature vectors — their evening-mean entries are 23/50
and 1 respectively — for every square-root function used by np.std. -/
theorem c1_train_serve_divergence (sq : ℚ → ℚ) :
    create_engineered_features sq divergenceWindow ≠
      create_time_based_features sq divergenceWindow := by
  intro h
  have h5 := congrArg (fun l => l.getD 5 0) h
  simp only [create_engineered_features, create_time_based_features, features9,
    divergenceWindow] at h5
  norm_num [npMean] at h5

/-- C4: create_engineered_features maps the empty window to the all-zero
9-vector, depends only on the first 24 samples of its input, and for a
non-empty window shorter than 24 samples pads the window to 24 values
with the mean of the available samples before computing the features. -/
theorem c4_extract_features_window (sq : ℚ → ℚ) (p : List ℚ) :
    create_engineered_features sq [] = List.replicate 9 0 ∧
    create_engineered_features sq p = create_engineered_features sq (p.take 24) ∧
    (0 < p.length → p.length < 24 →
      create_engineered_features sq p =
        features9 sq (p ++ List.replicate (24 - p.length) (npMean p))) := by
  refine ⟨rfl, ?_, ?_⟩
  · by_cases h24 : 24 ≤ p.length
    · have hne : p.length ≠ 0 := by omega
      have hlen : (p.take 24).length = 24 := by simp [h24]
      simp [create_engineered_features, hne, h24, hlen, List.take_take]
    · rw [List.take_of_length_le (by omega)]
  · intro h0 h24
    have hne : p.length ≠ 0 := by omega
    simp [create_engineered_features, hne, h24, Nat.not_le.mpr h24]

/-- The clip to [0.05, 1.0] always lands in [0.05, 1.0]. -/
theorem npClip_bounds (x : ℚ) :
    1/20 ≤ npClip x (1/20) 1 ∧ npClip x (1/20) 1 ≤ 1 := by
  unfold npClip
  exact ⟨le_min (le_max_right x (1/20)) (by norm_num), min_le_right _ 1⟩

/-- Setting a position to a value inside the band keeps the whole list
inside the band. -/
theorem inPhys_set (a : List ℚ) (i : ℕ) (v : ℚ) (ha : InPhysRange a)
    (hv : 1/20 ≤ v ∧ v ≤ 1) : InPhysRange (a.set i v) := by
  intro x hx
  rcases List.mem_or_eq_of_mem_set hx with h | rfl
  · exact ha x h
  · exact hv

/-- An in-bounds getD of an in-band list is in the band. -/
theorem inPhys_getD (a : List ℚ) (i : ℕ) (ha : InPhysRange a)
    (h : i < a.length) : 1/20 ≤ a.getD i 0 ∧ a.getD i 0 ≤ 1 := by
  rw [List.getD_eq_getElem a 0 h]
  exact ha _ (List.getElem_mem h)

/-- A fold whose every step preserves list length preserves it. -/
theorem foldl_length_eq {β : Type} (f : List ℚ → β → List ℚ)
    (hf : ∀ a b, (f a b).length = a.length) (l : List β) (a : List ℚ) :
    (l.foldl f a).length = a.length := by
  induction l generalizing a with
  | nil => rfl
  | cons b l ih => rw [List.foldl_cons, ih, hf]

/-- A fold whose every step preserves the band invariant preserves it. -/
theorem foldl_inPhys {β : Type} (f : List ℚ → β → List ℚ)
    (hf : ∀ a b, InPhysRange a → InPhysRange (f a b)) (l : List β)
    (a : List ℚ) (ha : InPhysRange a) : InPhysRange (l.foldl f a) := by
  induction l generalizing a with
  | nil => exact ha
  | cons b l ih => exact ih _ (hf a b ha)

/-- One trip's jetlag mutation preserves the signal length. -/
theorem applyTrip_length (pS : ℕ → ℤ) (pR : ℕ → ℕ) (nz : ℕ → ℕ → ℚ)
    (td : ℕ) (a : List ℚ) (d : ℕ) :
    (applyTrip pS pR nz td a d).length = a.length := by
  unfold applyTrip
  apply foldl_length_eq
  intro a2 b
  dsimp only
  split
  · rw [foldl_length_eq]
    intro a3 c
    exact List.length_set a3 c _
  · rfl

/-- One trip's jetlag mutation keeps every sample in the band: each
write is clipped. -/
theorem applyTrip_inPhys (pS : ℕ → ℤ) (pR : ℕ → ℕ) (nz : ℕ → ℕ → ℚ)
    (td : ℕ) (a : List ℚ) (d : ℕ) (ha : InPhysRange a) :
    InPhysRange (applyTrip pS pR nz td a d) := by
  unfold applyTrip
  apply foldl_inPhys _ _ _ _ ha
  intro a2 b ha2
  dsimp only
  split
  · apply foldl_inPhys _ _ _ _ ha2
    intro a3 c ha3
    exact inPhys_set _ _ _ ha3 (npClip_bounds _)
  · exact ha2

/-- C5: each of the four perturbation transforms returns a signal of
exactly the input's length whose every sample stays in [0.05, 1.0],
whenever every input sample lies in [0.05, 1.0]; for travel jetlag this
concerns the derived signal of a completed run (travelActivity, which on
the numpy-failure path is the unchanged base signal). -/
theorem c5_perturbation_invariants (shift : ℕ → ℕ) (ct : Chronotype)
    (stress_days : List ℕ) (snoise : ℕ → ℚ) (seasonal_factor : ℕ → ℚ)
    (pickDays : ℕ → ℕ → List ℕ) (pickShift : ℕ → ℤ) (pickRecovery : ℕ → ℕ)
    (tnoise : ℕ → ℕ → ℚ) (n_trips : ℕ) (time_hours : List ℤ)
    (activity : List ℚ) (hbase : InPhysRange activity) :
    (add_social_jetlag shift time_hours activity).length = activity.length ∧
    InPhysRange (add_social_jetlag shift time_hours activity) ∧
    (add_stress_patterns ct stress_days snoise activity).length =
      activity.length ∧
    InPhysRange (add_stress_patterns ct stress_days snoise activity) ∧
    (add_seasonal_variation seasonal_factor time_hours activity).length =
      activity.length ∧
    InPhysRange (add_seasonal_variation seasonal_factor time_hours activity) ∧
    (travelActivity pickDays pickShift pickRecovery tnoise n_trips
      time_hours activity).length = activity.length ∧
    InPhysRange (travelActivity pickDays pickShift pickRecovery tnoise
      n_trips time_hours activity) := by
  have hsoc_len : (add_social_jetlag shift time_hours activity).length =
      activity.length := by
    unfold add_social_jetlag
    apply foldl_length_eq
    intro a b
    dsimp only
    split
    · split
      · exact List.length_set a b _
      · rfl
    · rfl
  have hsoc_rng : InPhysRange (add_social_jetlag shift time_hours activity) := by
    unfold add_social_jetlag
    apply foldl_inPhys _ _ _ _ hbase
    intro a b ha
    dsimp only
    split
    · split
      · next h => exact inPhys_set _ _ _ ha (inPhys_getD _ _ ha h)
      · exact ha
    · exact ha
  have hstr_len : (add_stress_patterns ct stress_days snoise activity).length =
      activity.length := by
    unfold add_stress_patterns
    apply foldl_length_eq
    intro a b
    dsimp only
    rw [foldl_length_eq]
    intro a2 c
    exact List.length_set a2 c _
  have hstr_rng : InPhysRange (add_stress_patterns ct stress_days snoise
      activity) := by
    unfold add_stress_patterns
    apply foldl_inPhys _ _ _ _ hbase
    intro a b ha
    dsimp only
    apply foldl_inPhys _ _ _ _ ha
    intro a2 c ha2
    exact inPhys_set _ _ _ ha2 (npClip_bounds _)
  have hsea_len : (add_seasonal_variation seasonal_factor time_hours
      activity).length = activity.length := by
    unfold add_seasonal_variation
    apply foldl_length_eq
    intro a b
    exact List.length_set a b _
  have hsea_rng : InPhysRange (add_seasonal_variation seasonal_factor
      time_hours activity) := by
    unfold add_seasonal_variation
    apply foldl_inPhys _ _ _ _ hbase
    intro a b ha
    exact inPhys_set _ _ _ ha (npClip_bounds _)
  have htrv : (travelActivity pickDays pickShift pickRecovery tnoise n_trips
        time_hours activity).length = activity.length ∧
      InPhysRange (travelActivity pickDays pickShift pickRecovery tnoise
        n_trips time_hours activity) := by
    unfold travelActivity
    by_cases h1 : 0 < n_trips ∧ 7 < time_hours.length / 24
    · by_cases h2 : time_hours.length / 24 - 14 <
          min n_trips (time_hours.length / 24 / 10)
      · simp only [add_travel_jetlag, h1, h2, if_true, if_pos]
        exact ⟨rfl, hbase⟩
      · simp only [add_travel_jetlag, h1, h2, if_true, if_pos, if_neg,
          not_false_iff]
        constructor
        · exact foldl_length_eq _ (fun a b => applyTrip_length _ _ _ _ a b) _ _
        · exact foldl_inPhys _ (fun a b ha => applyTrip_inPhys _ _ _ _ a b ha)
            _ _ hbase
    · simp only [add_travel_jetlag, h1, if_neg, not_false_iff]
      exact ⟨by simp, hbase⟩
  exact ⟨hsoc_len, hsoc_rng, hstr_len, hstr_rng, hsea_len, hsea_rng,
    htrv.1, htrv.2⟩

/-- Witness for C5 on a concrete 3-sample signal (hour indices 120-122
exercise the weekend branch) with concrete draw functions. -/
theorem c5_perturbation_invariants_witness :
    (add_social_jetlag (fun _ => 1) [120, 121, 122] [1/2, 1, 1/20]).length =
      ([1/2, 1, 1/20] : List ℚ).length ∧
    InPhysRange (add_social_jetlag (fun _ => 1) [120, 121, 122]
      [1/2, 1, 1/20]) ∧
    (add_stress_patterns Chronotype.late [0] (fun _ => 0)
      [1/2, 1, 1/20]).length = ([1/2, 1, 1/20] : List ℚ).length ∧
    InPhysRange (add_stress_patterns Chronotype.late [0] (fun _ => 0)
      [1/2, 1, 1/20]) ∧
    (add_seasonal_variation (fun _ => 1) [120, 121, 122]
      [1/2, 1, 1/20]).length = ([1/2, 1, 1/20] : List ℚ).length ∧
    InPhysRange (add_seasonal_variation (fun _ => 1) [120, 121, 122]
      [1/2, 1, 1/20]) ∧
    (travelActivity (fun _ _ => []) (fun _ => 3) (fun _ => 3)
      (fun _ _ => 0) 0 [120, 121, 122] [1/2, 1, 1/20]).length =
      ([1/2, 1, 1/20] : List ℚ).length ∧
    InPhysRange (travelActivity (fun _ _ => []) (fun _ => 3) (fun _ => 3)
      (fun _ _ => 0) 0 [120, 121, 122] [1/2, 1, 1/20]) :=
  c5_perturbation_invariants (fun _ => 1) Chronotype.late [0] (fun _ => 0)
    (fun _ => 1) (fun _ _ => []) (fun _ => 3) (fun _ => 3) (fun _ _ => 0) 0
    [120, 121, 122] [1/2, 1, 1/20] (by norm_num [InPhysRange])

set_option maxRecDepth 4000 in
/-- C6 fails on the code: a subject with 240 hourly samples (10 days of
data) and the default two requested trips reaches the np.random.choice
call with an empty trip-day population range(7, 3) but a positive sample
count min(2, 240//24//10) = 1, which raises instead of returning the
base signal with an empty event log. -/
theorem c6_travel_jetlag_crash :
    add_travel_jetlag (fun _ _ => []) (fun _ => 3) (fun _ => 3)
      (fun _ _ => 0) 2 (List.replicate 240 0) (List.replicate 240 (1/2)) =
    .error .sampleLargerThanPopulation := rfl

/-- C9: whenever the external models are not loaded, predict_chronotype
returns the structured result with success false and the safe default
chronotype 1 (Intermediate), for every input activity pattern. -/
theorem c9_unloaded_safe_default (st : MLPredictorState) (p : List ℚ)
    (h : st.models_loaded = false) :
    (predict_chronotype st p).success = false ∧
    (predict_chronotype st p).chronotype = 1 := by
  simp [predict_chronotype, h]

/-- Witness for C9 on the unloaded predictor and the empty pattern. -/
theorem c9_unloaded_safe_default_witness :
    (predict_chronotype unloadedPredictor []).success = false ∧
    (predict_chronotype unloadedPredictor []).chronotype = 1 :=
  c9_unloaded_safe_default unloadedPredictor [] rfl

/-- C7 fails on the code: with totalSubjects = 0 (and 30 days), where
the claim demands a GenerationError, generate_population_data completes
normally. -/
theorem c7_validation_counterexample :
    (generate_population_data 0 30).isOk = true := rfl

/-- C7 amended: generate_population_data performs no input validation
and never fails with GenerationError; it completes for every
totalSubjects and daysPerSubject, and for totalSubjects < 1 it returns a
population with an empty subject list rather than failing. -/
theorem c7_no_validation_never_fails (n d : ℤ) :
    (generate_population_data n d).isOk = true ∧
    (n < 1 → usersOf n d = []) := by
  refine ⟨rfl, fun hn => ?_⟩
  obtain ⟨m, rfl⟩ := Int.exists_eq_neg_ofNat (by omega : n ≤ 0)
  have htd : ((m:ℤ)).tdiv 4 = ((m / 4 : ℕ) : ℤ) := by
    exact_mod_cast (Int.ofNat_tdiv m 4).symm
  unfold usersOf generate_population_data
  simp [Int.neg_tdiv, htd, Int.toNat_eq_zero]
  omega

/-- Witness for C7's amended statement at totalSubjects 0, days 30. -/
theorem c7_no_validation_never_fails_witness :
    (generate_population_data 0 30).isOk = true ∧ usersOf 0 30 = [] :=
  ⟨(c7_no_validation_never_fails 0 30).1,
   (c7_no_validation_never_fails 0 30).2 (by decide)⟩

/-- C8: for every totalSubjects ≥ 1 the generated population holds
exactly floor(totalSubjects/4) early and late subjects each and
totalSubjects − 2·floor(totalSubjects/4) intermediate subjects, the
counts summing to totalSubjects; in particular 1000 subjects split into
250 early, 250 late and 500 intermediate. -/
theorem c8_class_counts (n d : ℤ) (hn : 1 ≤ n) :
    (usersOf n d).count Chronotype.early = (Int.fdiv n 4).toNat ∧
    (usersOf n d).count Chronotype.late = (Int.fdiv n 4).toNat ∧
    (usersOf n d).count Chronotype.intermediate =
      (n - 2 * Int.fdiv n 4).toNat ∧
    (usersOf n d).length = n.toNat ∧
    (usersOf 1000 30).count Chronotype.early = 250 ∧
    (usersOf 1000 30).count Chronotype.late = 250 ∧
    (usersOf 1000 30).count Chronotype.intermediate = 500 ∧
    (usersOf 1000 30).length = 1000 := by
  have key : ∀ (n2 d2 : ℤ), 1 ≤ n2 →
      (usersOf n2 d2).count Chronotype.early = (Int.fdiv n2 4).toNat ∧
      (usersOf n2 d2).count Chronotype.late = (Int.fdiv n2 4).toNat ∧
      (usersOf n2 d2).count Chronotype.intermediate =
        (n2 - 2 * Int.fdiv n2 4).toNat ∧
      (usersOf n2 d2).length = n2.toNat := by
    intro n2 d2 hn2
    obtain ⟨m, rfl⟩ := Int.eq_ofNat_of_zero_le (by omega : (0:ℤ) ≤ n2)
    have hfd : Int.fdiv (m:ℤ) 4 = ((m / 4 : ℕ) : ℤ) := by
      rw [Int.fdiv_eq_tdiv (by positivity) (by norm_num)]
      exact_mod_cast (Int.ofNat_tdiv m 4).symm
    have htd : ((m:ℤ)).tdiv 4 = ((m / 4 : ℕ) : ℤ) := by
      exact_mod_cast (Int.ofNat_tdiv m 4).symm
    have h24 : 2 * (m / 4) ≤ m := by omega
    unfold usersOf generate_population_data
    refine ⟨?_, ?_, ?_, ?_⟩ <;>
      simp [List.count_append, List.count_replicate, htd, hfd] <;> omega
  have k1000 := key 1000 30 (by norm_num)
  refine ⟨(key n d hn).1, (key n d hn).2.1, (key n d hn).2.2.1,
    (key n d hn).2.2.2, ?_, ?_, ?_, ?_⟩
  · rw [k1000.1]
    decide
  · rw [k1000.2.1]
    decide
  · rw [k1000.2.2.1]
    decide
  · rw [k1000.2.2.2]
    decide

/-- Witness for C8 at totalSubjects 5, days 2 (5 splits into 1, 1, 3). -/
theorem c8_class_counts_witness :
    (usersOf 5 2).count Chronotype.early = (Int.fdiv 5 4).toNat ∧
    (usersOf 5 2).count Chronotype.late = (Int.fdiv 5 4).toNat ∧
    (usersOf 5 2).count Chronotype.intermediate =
      ((5:ℤ) - 2 * Int.fdiv 5 4).toNat ∧
    (usersOf 5 2).length = (5:ℤ).toNat ∧
    (usersOf 1000 30).count Chronotype.early = 250 ∧
    (usersOf 1000 30).count Chronotype.late = 250 ∧
    (usersOf 1000 30).count Chronotype.intermediate = 500 ∧
    (usersOf 1000 30).length = 1000 :=
  c8_class_counts 5 2 (by decide)

/-- C10: for every days ≥ 1 the hourly resampling keeps every hour:
the kept hour indices are exactly 0, 1, ..., days·24 - 1 (gap-free,
increasing, starting at 0) and the activity signal has length exactly
days·24 — the empty-bucket branch that would drop an hour is never
taken, because every bucket [h, h+1) contains the linspace node 4h. -/
theorem c10_hourly_grid_gap_free (days : ℕ) (sample : ℕ → ℚ)
    (hd : 1 ≤ days) :
    (generate_hourly days sample).1 = List.range (days * 24) ∧
    (generate_hourly days sample).2.length = days * 24 := by
  have hkey : ∀ h ∈ List.range (days * 24),
      (!(hourBucket (days * 24) h).isEmpty) = true := by
    intro h hh
    rw [List.mem_range] at hh
    have hT : 24 ≤ days * 24 := by omega
    have hTq : (24 : ℚ) ≤ ((days * 24 : ℕ) : ℚ) := by exact_mod_cast hT
    have hc : (0:ℚ) < 4 * ((days * 24 : ℕ) : ℚ) - 1 := by linarith
    have hhq : ((h : ℚ)) + 1 ≤ ((days * 24 : ℕ) : ℚ) := by exact_mod_cast hh
    have hh0 : (0:ℚ) ≤ (h : ℚ) := by positivity
    have hmem : 4 * h ∈ hourBucket (days * 24) h := by
      unfold hourBucket
      rw [List.mem_filter]
      refine ⟨List.mem_range.mpr (by omega), ?_⟩
      rw [Bool.and_eq_true, decide_eq_true_eq, decide_eq_true_eq]
      unfold linspaceNode
      constructor
      · rw [le_div_iff₀ hc]
        push_cast at hhq hTq ⊢
        nlinarith
      · rw [div_lt_iff₀ hc]
        push_cast at hhq hTq ⊢
        nlinarith
    simp only [Bool.not_eq_true']
    cases hb : hourBucket (days * 24) h
    case nil => rw [hb] at hmem; exact absurd hmem (List.not_mem_nil _)
    case cons => rfl
  have hfilter : (List.range (days * 24)).filter
      (fun h => !(hourBucket (days * 24) h).isEmpty) =
      List.range (days * 24) :=
    List.filter_eq_self.mpr hkey
  constructor
  · simpa [generate_hourly] using hfilter
  · simp [generate_hourly, hfilter]

/-- Witness for C10 at days = 1. -/
theorem c10_hourly_grid_gap_free_witness :
    1 ≤ 1 ∧ ((generate_hourly 1 (fun _ => 0)).1 = List.range (1 * 24) ∧
      (generate_hourly 1 (fun _ => 0)).2.length = 1 * 24) :=
  ⟨le_refl 1, c10_hourly_grid_gap_free 1 (fun _ => 0) (le_refl 1)⟩

/-- Witness for C4 on the concrete 10-sample window padWindow10. -/
theorem c4_extract_features_window_witness :
    create_engineered_features id [] = List.replicate 9 0 ∧
    create_engineered_features id padWindow10 =
      create_engineered_features id (padWindow10.take 24) ∧
    create_engineered_features id padWindow10 =
      features9 id (padWindow10 ++
        List.replicate (24 - padWindow10.length) (npMean padWindow10)) :=
  ⟨(c4_extract_features_window id padWindow10).1,
   (c4_extract_features_window id padWindow10).2.1,
   (c4_extract_features_window id padWindow10).2.2 (by decide) (by decide)⟩

end CircadianLending
